import Mathlib

/-!
Shallow embedding of the sqlalchemy-orm-pydantic-type proof-of-concept repository.

The repository defines, in src/main.py, a family of custom SQLAlchemy column
types (`BasePydanticType`, `PydanticJSON`, `PydanticString`) that store a
pydantic model in a database column, and, in src/migrations/env.py, an alembic
`render_item` hook plus the offline/online migration runners.

The embedding models, from the source:
  - JSON values (`Json`) and serialized JSON text (`JsonText`); the concrete
    character rendering of JSON text performed by the external validation
    library is injective and never inspected by the adapter, so serialized
    text is represented by its parse tree;
  - the demo pydantic model `UserMeta` from src/main.py together with the
    external validation library operations used on it (`model_dump` in JSON
    mode, `TypeAdapter.validate_python`, `model_dump_json`,
    `model_validate_json`), specialized to the fields of `UserMeta`;
  - the adapter instance state produced by `BasePydanticType.__init__` and the
    methods `process_bind_param` / `process_result_value`, generic in the
    model and column types exactly as the Python class is generic in `ModelT`;
  - dialect-specific implementation selection (`get_dialect_type_impl`,
    `load_dialect_impl`) over an abstract view of SQLAlchemy type classes and
    type instances;
  - the alembic `render_item` hook and the keyword arguments that
    `run_migrations_offline` / `run_migrations_online` pass to
    `context.configure`.
-/

/-- JSON values, as produced by the validation library when a model is dumped
in JSON mode and as carried by a JSON database column. -/
inductive Json where
  | null
  | bool (b : Bool)
  | int (n : Int)
  | str (s : String)
  | arr (elems : List Json)
  | obj (fields : List (String × Json))

/-- Serialized JSON text (the value stored in a string column), represented by
its parse tree: the external validation library renders and parses it, and the
adapter under verification treats it as opaque. -/
structure JsonText where
  data : Json

/-- The demo pydantic model from src/main.py:
`class UserMeta(BaseModel): a: str; b: int; c: bool | None`. -/
structure UserMeta where
  a : String
  b : Int
  c : Option Bool
  deriving DecidableEq

/-- Behavior of the external validation library: `model.model_dump(mode="json")`
on a `UserMeta`. For the field types of `UserMeta` (str, int, bool | None) the
JSON-mode dump is the evident JSON object, so the `mode` argument is not a
parameter of the model. -/
def UserMeta.model_dump (m : UserMeta) : Json :=
  Json.obj
    [("a", Json.str m.a),
     ("b", Json.int m.b),
     ("c", match m.c with
       | none => Json.null
       | some b => Json.bool b)]

/-- Behavior of the external validation library:
`TypeAdapter(UserMeta).validate_python(value)`. A JSON object with a string
field `a`, an integer field `b` and a bool-or-null field `c` validates into the
corresponding `UserMeta`; anything else is a validation error. -/
def UserMeta.validate_python (value : Json) : Except String UserMeta :=
  match value with
  | Json.obj fields =>
    match fields.lookup "a", fields.lookup "b", fields.lookup "c" with
    | some (Json.str a), some (Json.int b), some Json.null =>
      Except.ok ⟨a, b, none⟩
    | some (Json.str a), some (Json.int b), some (Json.bool c) =>
      Except.ok ⟨a, b, some c⟩
    | _, _, _ => Except.error "validation error"
  | _ => Except.error "validation error"

/-- View of a `pydantic.TypeAdapter`: the piece of its interface the adapter
code uses (`validate_python`). -/
structure TypeAdapter (μ : Type) where
  validate_python : Json → Except String μ

/-- The object `TypeAdapter(UserMeta)` built by the cached property
`BasePydanticType.type_adapter` when the configured model type is `UserMeta`. -/
def UserMeta.type_adapter : TypeAdapter UserMeta :=
  ⟨UserMeta.validate_python⟩

/-- Behavior of the external validation library: `model.model_dump_json()` on a
`UserMeta` — the JSON-mode dump rendered as text. -/
def UserMeta.model_dump_json (m : UserMeta) : JsonText :=
  ⟨m.model_dump⟩

/-- Behavior of the external validation library:
`UserMeta.model_validate_json(text)` — parse the text and validate the result. -/
def UserMeta.model_validate_json (text : JsonText) : Except String UserMeta :=
  UserMeta.validate_python text.data

/-- Bundle of the external validation-library operations on a pydantic model
class `μ`; this is the role the attribute `_pydantic_model_type` plays in the
Python class. -/
structure PydanticModel (μ : Type) where
  model_dump : μ → Json
  type_adapter : TypeAdapter μ
  model_dump_json : μ → JsonText
  model_validate_json : JsonText → Except String μ

/-- The operations of the validation library on the configured model type
`UserMeta`. -/
def UserMeta.pydantic : PydanticModel UserMeta :=
  { model_dump := UserMeta.model_dump,
    type_adapter := UserMeta.type_adapter,
    model_dump_json := UserMeta.model_dump_json,
    model_validate_json := UserMeta.model_validate_json }

/-- A SQLAlchemy dialect, seen through the only attribute the code reads from
it: its `name` (e.g. "postgresql", "sqlite"). -/
structure Dialect where
  name : String

/-- The SQLAlchemy type classes occurring in src/main.py: `JSON` (generic),
`postgresql.JSONB`, and `String` (written `STRING` here because `String` is
taken in Lean). -/
inductive SqlTypeClass where
  | JSON
  | JSONB
  | STRING
  deriving DecidableEq

/-- A SQLAlchemy `TypeEngine[Any] | type[TypeEngine[Any]]` value: either a type
class (e.g. the class `JSON` itself) or an already-constructed type instance
(e.g. `JSON()`). -/
inductive TypeImpl where
  | cls (k : SqlTypeClass)
  | inst (k : SqlTypeClass)
  deriving DecidableEq

/-- Python `callable(impl)`: a type class is callable, a `TypeEngine` instance
(which defines no `__call__`) is not. -/
def TypeImpl.callable : TypeImpl → Bool
  | cls _ => true
  | inst _ => false

/-- Python `impl()`: calling a type class constructs an instance. The `inst`
branch is unreachable in the source, where every call is guarded by
`callable(impl)`. -/
def TypeImpl.call : TypeImpl → TypeImpl
  | cls k => inst k
  | inst k => inst k

/-- Whether a `TypeImpl` is an already-constructed instance. -/
def TypeImpl.isInst : TypeImpl → Bool
  | cls _ => false
  | inst _ => true

/-- The expression `impl() if callable(impl) else impl` used in
`load_dialect_impl` and in `render_item`; it is also the behavior of SQLAlchemy
`to_instance`, which underlies `TypeDecorator.impl_instance`. -/
def to_instance (impl : TypeImpl) : TypeImpl :=
  if impl.callable then impl.call else impl

/-- `TypeDecorator.impl_instance` (from the external mapping library) of a type
decorator whose class attribute `impl` is the given value. -/
def impl_instance (impl : TypeImpl) : TypeImpl :=
  to_instance impl

/-- Instance state of a `BasePydanticType` after `__init__`: the stored
serializer `self._serializer : α → β` from application objects to column
values, and the stored deserializer `self._deserializer`, which can fail with a
validation error. `α` is the model type `ModelT`, `β` the column-value type. -/
structure BasePydanticType (α β : Type) where
  serializer : α → β
  deserializer : β → Except String α

/-- `BasePydanticType.__init__`: store `serializer or self._default_serializer`
and `deserializer or self._default_deserializer`. The class-resolved defaults
are passed explicitly; a function argument is truthy in Python, so `x or d`
picks `x` exactly when `x` is not `None`. -/
def BasePydanticType.init {α β : Type} (default_serializer : α → β)
    (default_deserializer : β → Except String α)
    (serializer : Option (α → β)) (deserializer : Option (β → Except String α)) :
    BasePydanticType α β :=
  { serializer := serializer.getD default_serializer,
    deserializer := deserializer.getD default_deserializer }

/-- `BasePydanticType.process_bind_param`: `None` binds to `None`, any other
value binds to `self._serializer(value)`. -/
def BasePydanticType.process_bind_param {α β : Type} (self : BasePydanticType α β)
    (value : Option α) (dialect : Dialect) : Option β :=
  match value with
  | none => none
  | some v => some (self.serializer v)

/-- `BasePydanticType.process_result_value`: `None` loads as `None`, any other
value loads as `self._deserializer(value)` (whose validation failure
propagates). -/
def BasePydanticType.process_result_value {α β : Type} (self : BasePydanticType α β)
    (value : Option β) (dialect : Dialect) : Except String (Option α) :=
  match value with
  | none => Except.ok none
  | some v => (self.deserializer v).map some

/-- `BasePydanticType._default_serializer`: `model.model_dump(mode="json")`. -/
def BasePydanticType.default_serializer {μ : Type} (P : PydanticModel μ) (model : μ) : Json :=
  P.model_dump model

/-- `BasePydanticType._default_deserializer`:
`self.type_adapter.validate_python(value)`. -/
def BasePydanticType.default_deserializer {μ : Type} (P : PydanticModel μ) (value : Json) :
    Except String μ :=
  P.type_adapter.validate_python value

/-- `PydanticString._default_serializer`: `model.model_dump_json()`. -/
def PydanticString.default_serializer {μ : Type} (P : PydanticModel μ) (model : μ) : JsonText :=
  P.model_dump_json model

/-- `PydanticString._default_deserializer`:
`self._pydantic_model_type.model_validate_json(value)`. -/
def PydanticString.default_deserializer {μ : Type} (P : PydanticModel μ) (value : JsonText) :
    Except String μ :=
  P.model_validate_json value

/-- Constructing `PydanticJSON(model_type, serializer=..., deserializer=...)`:
`__init__` with the defaults inherited from `BasePydanticType`. -/
def PydanticJSON.make {μ : Type} (P : PydanticModel μ) (serializer : Option (μ → Json))
    (deserializer : Option (Json → Except String μ)) : BasePydanticType μ Json :=
  BasePydanticType.init (BasePydanticType.default_serializer P)
    (BasePydanticType.default_deserializer P) serializer deserializer

/-- Constructing `PydanticString(model_type, serializer=..., deserializer=...)`:
`__init__` with the defaults overridden by `PydanticString`. -/
def PydanticString.make {μ : Type} (P : PydanticModel μ) (serializer : Option (μ → JsonText))
    (deserializer : Option (JsonText → Except String μ)) : BasePydanticType μ JsonText :=
  BasePydanticType.init (PydanticString.default_serializer P)
    (PydanticString.default_deserializer P) serializer deserializer

/-- The column type `PydanticJSON(UserMeta)` configured on `UserJson.meta` in
src/main.py (default serializer and deserializer). -/
def UserJson.meta_type : BasePydanticType UserMeta Json :=
  PydanticJSON.make UserMeta.pydantic none none

/-- The column type `PydanticString(UserMeta)` configured on `UserString.meta`
in src/main.py (default serializer and deserializer). -/
def UserString.meta_type : BasePydanticType UserMeta JsonText :=
  PydanticString.make UserMeta.pydantic none none

/-- `BasePydanticType.get_dialect_type_impl`: the base implementation returns
`self.impl` for every dialect; `self.impl` is passed explicitly since it is a
class attribute. -/
def BasePydanticType.get_dialect_type_impl (impl : TypeImpl) (dialect : Dialect) : TypeImpl :=
  impl

/-- The class attribute `PydanticJSON.impl = JSON`. -/
def PydanticJSON.impl : TypeImpl :=
  TypeImpl.cls SqlTypeClass.JSON

/-- `PydanticJSON.get_dialect_type_impl`: `JSONB` when the dialect name is
"postgresql", otherwise `self.impl`. -/
def PydanticJSON.get_dialect_type_impl (dialect : Dialect) : TypeImpl :=
  if dialect.name = "postgresql" then TypeImpl.cls SqlTypeClass.JSONB
  else PydanticJSON.impl

/-- The class attribute `PydanticString.impl = String`. -/
def PydanticString.impl : TypeImpl :=
  TypeImpl.cls SqlTypeClass.STRING

/-- The argument that `BasePydanticType.load_dialect_impl` passes to
`dialect.type_descriptor`: with `impl = self.get_dialect_type_impl(dialect)`,
the value `impl() if callable(impl) else impl`. The resolved
`get_dialect_type_impl` method is passed as a function. The call to the
external `type_descriptor` itself lies outside the model. -/
def BasePydanticType.load_dialect_impl_arg (get_impl : Dialect → TypeImpl)
    (dialect : Dialect) : TypeImpl :=
  if (get_impl dialect).callable then (get_impl dialect).call else (get_impl dialect)

/-- The piece of the alembic `AutogenContext` the hook reads: its `dialect`,
which may be absent (`None`). -/
structure AutogenContext where
  dialect : Option Dialect

/-- An object passed to `render_item` as `obj`: either an instance of
`BasePydanticType` — carrying its class attribute `impl` and its resolved
`get_dialect_type_impl` method — or any other object. -/
inductive RenderObj where
  | pydanticType (impl : TypeImpl) (get_dialect_type_impl : Dialect → TypeImpl)
  | other

/-- Result of `render_item`: either the string `_repr_type(impl,
autogen_context)` produced by the external migration tool for the given type
implementation — represented by that implementation, the context being the one
passed in unchanged — or the literal `False` requesting default rendering. -/
inductive RenderResult where
  | rendered (impl : TypeImpl)
  | falseResult
  deriving DecidableEq

/-- The hook `render_item(type_, obj, autogen_context)` from
src/migrations/env.py. -/
def render_item (type_ : String) (obj : RenderObj) (autogen_context : AutogenContext) :
    RenderResult :=
  if type_ = "type" then
    match obj with
    | RenderObj.pydanticType impl gdti =>
      match autogen_context.dialect with
      | some d =>
        RenderResult.rendered (if (gdti d).callable then (gdti d).call else (gdti d))
      | none => RenderResult.rendered (impl_instance impl)
    | RenderObj.other => RenderResult.falseResult
  else RenderResult.falseResult

/-- The keyword arguments of interest in a call to `context.configure` of the
migration tool. `connection` records whether a connection was passed;
`target_metadata` whether the metadata was passed; `literal_binds` defaults to
false when not passed. -/
structure ConfigureCall where
  url : Option String
  connection : Bool
  target_metadata : Bool
  literal_binds : Bool
  render_item : Option (String → RenderObj → AutogenContext → RenderResult)
  dialect_opts : List (String × String)

/-- The URL set by `config.set_main_option("sqlalchemy.url", ...)` at module
level in src/migrations/env.py and read back by `config.get_main_option`. -/
def sqlalchemy_url : String :=
  "sqlite:///database.db"

/-- The `context.configure` call made by `run_migrations_offline`. -/
def run_migrations_offline_configure : ConfigureCall :=
  { url := some sqlalchemy_url,
    connection := false,
    target_metadata := true,
    literal_binds := true,
    render_item := some render_item,
    dialect_opts := [("paramstyle", "named")] }

/-- The `context.configure` call made by `run_migrations_online`. -/
def run_migrations_online_configure : ConfigureCall :=
  { url := none,
    connection := true,
    target_metadata := true,
    literal_binds := false,
    render_item := some render_item,
    dialect_opts := [] }

/-- C1: Round-trip transparency: for every `UserMeta` model `m` (the configured
pydantic model type) and for both `PydanticJSON(UserMeta)` and
`PydanticString(UserMeta)` with their default serializer and deserializer,
`process_result_value` applied to the output of `process_bind_param m dialect`
successfully returns the original model `m`, for any dialects on either side. -/
theorem c1_roundtrip_default (m : UserMeta) (d1 d2 d3 d4 : Dialect) :
    UserJson.meta_type.process_result_value
        (UserJson.meta_type.process_bind_param (some m) d1) d2 = Except.ok (some m)
    ∧ UserString.meta_type.process_result_value
        (UserString.meta_type.process_bind_param (some m) d3) d4 = Except.ok (some m) := by
  obtain ⟨a, b, c⟩ := m
  cases c <;> exact ⟨rfl, rfl⟩

/-- C2: Dialect-specific column-type selection: `PydanticJSON.get_dialect_type_impl`
returns the PostgreSQL `JSONB` class exactly when the dialect name is
"postgresql" and the generic `JSON` impl (`PydanticJSON.impl`) otherwise, while
`BasePydanticType.get_dialect_type_impl` returns `self.impl` unconditionally. -/
theorem c2_dialect_type_selection (d : Dialect) (impl : TypeImpl) :
    (PydanticJSON.get_dialect_type_impl d = TypeImpl.cls SqlTypeClass.JSONB
      ↔ d.name = "postgresql")
    ∧ (d.name ≠ "postgresql" → PydanticJSON.get_dialect_type_impl d = PydanticJSON.impl)
    ∧ BasePydanticType.get_dialect_type_impl impl d = impl := by
  refine ⟨?_, ?_, rfl⟩ <;> by_cases h : d.name = "postgresql" <;>
    simp [PydanticJSON.get_dialect_type_impl, PydanticJSON.impl, h]

/-- Witness for C2 at the concrete dialects "postgresql" and "sqlite". -/
theorem c2_witness :
    PydanticJSON.get_dialect_type_impl ⟨"postgresql"⟩ = TypeImpl.cls SqlTypeClass.JSONB
    ∧ PydanticJSON.get_dialect_type_impl ⟨"sqlite"⟩ = PydanticJSON.impl :=
  ⟨(c2_dialect_type_selection ⟨"postgresql"⟩ PydanticJSON.impl).1.mpr rfl,
   (c2_dialect_type_selection ⟨"sqlite"⟩ PydanticJSON.impl).2.1 (by decide)⟩

/-- C3: Migration rendering hook behaviour: for an item with `type_ = "type"`
whose object is a `BasePydanticType` instance, `render_item` returns a
rendering of the dialect-specific type implementation — of
`to_instance (get_dialect_type_impl d)` when the autogen context carries
dialect `d`, and of `obj.impl_instance` when it carries none — and for every
other item (wrong `type_`, or an object that is not a `BasePydanticType`) it
returns `False`, requesting default rendering. -/
theorem c3_render_item_behavior (impl : TypeImpl) (gdti : Dialect → TypeImpl)
    (ctx : AutogenContext) (type_ : String) (obj : RenderObj) :
    (∀ d, ctx.dialect = some d →
      render_item "type" (RenderObj.pydanticType impl gdti) ctx
        = RenderResult.rendered (to_instance (gdti d)))
    ∧ (ctx.dialect = none →
      render_item "type" (RenderObj.pydanticType impl gdti) ctx
        = RenderResult.rendered (impl_instance impl))
    ∧ (type_ ≠ "type" → render_item type_ obj ctx = RenderResult.falseResult)
    ∧ render_item type_ RenderObj.other ctx = RenderResult.falseResult := by
  refine ⟨?_, ?_, ?_, ?_⟩
  · intro d hd
    simp [render_item, hd, to_instance]
  · intro hd
    simp [render_item, hd]
  · intro ht
    cases obj <;> simp [render_item, ht]
  · by_cases ht : type_ = "type" <;> simp [render_item, ht]

/-- Witness for C3: a pydantic-type item rendered with and without a dialect in
the context, and a non-"type" item left to default rendering. -/
theorem c3_witness :
    render_item "type"
        (RenderObj.pydanticType (TypeImpl.cls SqlTypeClass.JSON)
          (fun _ => TypeImpl.cls SqlTypeClass.JSONB))
        ⟨some ⟨"postgresql"⟩⟩
      = RenderResult.rendered (TypeImpl.inst SqlTypeClass.JSONB)
    ∧ render_item "type"
        (RenderObj.pydanticType (TypeImpl.cls SqlTypeClass.JSON)
          (fun _ => TypeImpl.cls SqlTypeClass.JSONB))
        ⟨none⟩
      = RenderResult.rendered (TypeImpl.inst SqlTypeClass.JSON)
    ∧ render_item "column" RenderObj.other ⟨some ⟨"sqlite"⟩⟩ = RenderResult.falseResult :=
  ⟨(c3_render_item_behavior (TypeImpl.cls SqlTypeClass.JSON)
      (fun _ => TypeImpl.cls SqlTypeClass.JSONB) ⟨some ⟨"postgresql"⟩⟩ "column"
      RenderObj.other).1 ⟨"postgresql"⟩ rfl,
   (c3_render_item_behavior (TypeImpl.cls SqlTypeClass.JSON)
      (fun _ => TypeImpl.cls SqlTypeClass.JSONB) ⟨none⟩ "column" RenderObj.other).2.1 rfl,
   (c3_render_item_behavior (TypeImpl.cls SqlTypeClass.JSON)
      (fun _ => TypeImpl.cls SqlTypeClass.JSONB) ⟨some ⟨"sqlite"⟩⟩ "column"
      RenderObj.other).2.2.1 (by decide)⟩

/-- C4: Storage representation: with the default serializers,
`PydanticJSON(UserMeta).process_bind_param` stores a non-None model as the
structured JSON value `model.model_dump(mode="json")`, while
`PydanticString(UserMeta).process_bind_param` stores it as the single
serialized string `model.model_dump_json()`. -/
theorem c4_storage_representation (m : UserMeta) (d1 d2 : Dialect) :
    UserJson.meta_type.process_bind_param (some m) d1 = some (UserMeta.model_dump m)
    ∧ UserString.meta_type.process_bind_param (some m) d2 = some (UserMeta.model_dump_json m) :=
  ⟨rfl, rfl⟩

/-- C5: Delegation of deserialization to the validation library: on every
non-None column value, `PydanticJSON(UserMeta)` loads exactly
`TypeAdapter(UserMeta).validate_python(v)` and `PydanticString(UserMeta)` loads
exactly `UserMeta.model_validate_json(v)`; moreover the default deserializers
themselves are exactly those validation-library calls, so the adapter
implements no validation logic of its own. -/
theorem c5_deserialization_delegation (v : Json) (t : JsonText) (d1 d2 : Dialect) :
    UserJson.meta_type.process_result_value (some v) d1
      = (UserMeta.type_adapter.validate_python v).map some
    ∧ UserString.meta_type.process_result_value (some t) d2
      = (UserMeta.model_validate_json t).map some
    ∧ BasePydanticType.default_deserializer UserMeta.pydantic v
      = UserMeta.type_adapter.validate_python v
    ∧ PydanticString.default_deserializer UserMeta.pydantic t
      = UserMeta.model_validate_json t :=
  ⟨rfl, rfl, rfl, rfl⟩

/-- C6: Interception with configurable (de)serializers: for every non-None
value, `process_bind_param` returns exactly the stored serializer applied to
the value and `process_result_value` returns exactly the stored deserializer
applied to the value; a serializer or deserializer passed to `__init__`
replaces the corresponding default, and the defaults are used exactly when the
corresponding constructor argument is `None`. -/
theorem c6_configurable_serializers {α β : Type} (ds : α → β) (dd : β → Except String α)
    (f : α → β) (g : β → Except String α)
    (so : Option (α → β)) (de : Option (β → Except String α))
    (v : α) (w : β) (d1 d2 : Dialect) :
    (BasePydanticType.init ds dd so de).process_bind_param (some v) d1
      = some ((BasePydanticType.init ds dd so de).serializer v)
    ∧ (BasePydanticType.init ds dd so de).process_result_value (some w) d2
      = ((BasePydanticType.init ds dd so de).deserializer w).map some
    ∧ (BasePydanticType.init ds dd (some f) (some g)).serializer = f
    ∧ (BasePydanticType.init ds dd (some f) (some g)).deserializer = g
    ∧ (BasePydanticType.init ds dd none none).serializer = ds
    ∧ (BasePydanticType.init ds dd none none).deserializer = dd :=
  ⟨rfl, rfl, rfl, rfl, rfl, rfl⟩

/-- C7: Rendering-callback registration: both `run_migrations_offline` and
`run_migrations_online` pass `render_item=render_item` to `context.configure`. -/
theorem c7_render_item_registered :
    run_migrations_offline_configure.render_item = some render_item
    ∧ run_migrations_online_configure.render_item = some render_item :=
  ⟨rfl, rfl⟩

/-- C8: None passthrough: for every dialect and every configuration of
`BasePydanticType` (any stored serializer and deserializer whatsoever),
`process_bind_param none` returns `none` and `process_result_value none`
returns `none`; the result is independent of the stored (de)serializers, which
are therefore never invoked on a None value. -/
theorem c8_none_passthrough {α β : Type} (self : BasePydanticType α β) (d1 d2 : Dialect) :
    self.process_bind_param none d1 = none
    ∧ self.process_result_value none d2 = Except.ok none :=
  ⟨rfl, rfl⟩

/-- C9: Dialect noninterference of value conversion: for every value and any
two dialects, `process_bind_param` and `process_result_value` give identical
results; the dialect argument never influences value conversion. -/
theorem c9_dialect_noninterference {α β : Type} (self : BasePydanticType α β)
    (v : Option α) (w : Option β) (d1 d2 : Dialect) :
    self.process_bind_param v d1 = self.process_bind_param v d2
    ∧ self.process_result_value w d1 = self.process_result_value w d2 :=
  ⟨rfl, rfl⟩

/-- C10: Impl normalization in `load_dialect_impl`: for every dialect the value
passed to `dialect.type_descriptor` is an instance, never a class; a callable
type class is instantiated with no arguments, and an already-constructed
instance is passed through unchanged. -/
theorem c10_load_dialect_impl_instance (get_impl : Dialect → TypeImpl) (d : Dialect)
    (k : SqlTypeClass) (t : TypeImpl) :
    (BasePydanticType.load_dialect_impl_arg get_impl d).isInst = true
    ∧ to_instance (TypeImpl.cls k) = TypeImpl.inst k
    ∧ (t.isInst = true → to_instance t = t) := by
  refine ⟨?_, rfl, ?_⟩
  · rcases hg : get_impl d with k1 | k1 <;>
      simp [BasePydanticType.load_dialect_impl_arg, hg, TypeImpl.callable, TypeImpl.call,
        TypeImpl.isInst]
  · intro ht
    cases t with
    | cls k2 => simp [TypeImpl.isInst] at ht
    | inst k2 => rfl

/-- Witness for C10 at a concrete dialect-impl selection, a concrete class and
a concrete instance. -/
theorem c10_witness :
    (BasePydanticType.load_dialect_impl_arg (fun _ => TypeImpl.cls SqlTypeClass.JSON)
      ⟨"sqlite"⟩).isInst = true
    ∧ to_instance (TypeImpl.cls SqlTypeClass.JSONB) = TypeImpl.inst SqlTypeClass.JSONB
    ∧ to_instance (TypeImpl.inst SqlTypeClass.STRING) = TypeImpl.inst SqlTypeClass.STRING :=
  ⟨(c10_load_dialect_impl_instance (fun _ => TypeImpl.cls SqlTypeClass.JSON) ⟨"sqlite"⟩
      SqlTypeClass.JSONB (TypeImpl.inst SqlTypeClass.STRING)).1,
   (c10_load_dialect_impl_instance (fun _ => TypeImpl.cls SqlTypeClass.JSON) ⟨"sqlite"⟩
      SqlTypeClass.JSONB (TypeImpl.inst SqlTypeClass.STRING)).2.1,
   (c10_load_dialect_impl_instance (fun _ => TypeImpl.cls SqlTypeClass.JSON) ⟨"sqlite"⟩
      SqlTypeClass.JSONB (TypeImpl.inst SqlTypeClass.STRING)).2.2 rfl⟩
